import Mathlib

/-
Verification of the CoreRT native bootstrap (src/Native/Bootstrap/main.cpp):
module registration, runtime initialization sequencing, raw object layout
accessors, the managed-entry fault boundary, and the diagnostic fallback stubs.

The C++ source is shallowly embedded: heap memory is a byte function
`Nat → Nat` (each read taken mod 256), traces of the bootstrap are explicit
event lists, and the behavior of the external collaborators (PAL init, the
runtime attach notification, stack-scan enablement, COFF module registration,
and the managed entry point) is abstracted into an environment record, since
the bootstrap only branches on their boolean results.
-/

namespace CoreRTBootstrap

/-! ### Module registry: section-merge strategy (main.cpp lines 36-79, 351)

`__modules_a` and `__modules_z` are one-element arrays each holding a single
null placeholder; the linker places the per-unit `.modules$I` pointers between
them.  `data` below is the list of the N contributed (non-null) descriptors,
descriptors being modelled as `Nat` addresses. -/

/-- The merged `.modules` section: the one-null leading bookend, the N
contributed descriptor pointers, the one-null trailing bookend. -/
def mergedModulesSection (data : List Nat) : List (Option Nat) :=
  [none] ++ data.map some ++ [none]

/-- Word index of `__modules_a` within the merged section. -/
def modulesAIndex : Nat := 0

/-- Word index of `__modules_z` within the merged section: one leading
placeholder plus the N descriptors. -/
def modulesZIndex (data : List Nat) : Nat := 1 + data.length

/-- The count passed to `InitializeModules` at main.cpp line 351: the pointer
difference `__modules_z - __modules_a` in pointer-sized units. -/
def initializeModulesCount (data : List Nat) : Nat :=
  modulesZIndex data - modulesAIndex

/-- The module list passed to `InitializeModules` at main.cpp line 351: the
array starting at `__modules_a` with `initializeModulesCount` entries. -/
def initializeModulesList (data : List Nat) : List (Option Nat) :=
  ((mergedModulesSection data).drop modulesAIndex).take (initializeModulesCount data)

/-- Written from the spec, for comparison: the contents of the merged section
strictly between the two bookend arrays, placeholders excluded. -/
def spec_strictlyBetweenList (data : List Nat) : List (Option Nat) :=
  data.map some

/-! ### Classlib callback table (main.cpp lines 316-327, 340-342) -/

/-- The callback identities that can appear in a classlib function table;
the first two are the functions declared at main.cpp lines 316-318, the rest
are the identities the spec talks about. -/
inductive ClasslibFn where
  | getRuntimeException
  | failFast
  | objectAlloc
  | arrayAlloc
  | typeCheck
  | storeRefElement
  | loadRefElementAddress
  | raiseException
  deriving DecidableEq, Repr

/-- The table `c_classlibFunctions` of main.cpp lines 322-327:
`GetRuntimeException`, `FailFast`, then two null slots (the commented-out
`UnhandledExceptionHandler` and `AppendExceptionStackFrame`). -/
def c_classlibFunctions : List (Option ClasslibFn) :=
  [some ClasslibFn.getRuntimeException,
   some ClasslibFn.failFast,
   none,
   none]

/-- The count passed to `RhpRegisterCoffModule` at main.cpp line 342:
`_countof(c_classlibFunctions)`, the element count of the table. -/
def registeredClasslibFunctionCount : Nat := c_classlibFunctions.length

/-- Written from the spec, for comparison: the eight-entry fixed-order table
the spec claims is registered (object-alloc, array-alloc, type-check,
store-ref-element, load-ref-element-address, raise-exception,
unhandled-handler unset, append-stack-frame unset). -/
def spec_claimedCallbackTable : List (Option ClasslibFn) :=
  [some ClasslibFn.objectAlloc,
   some ClasslibFn.arrayAlloc,
   some ClasslibFn.typeCheck,
   some ClasslibFn.storeRefElement,
   some ClasslibFn.loadRefElementAddress,
   some ClasslibFn.raiseException,
   none,
   none]

/-! ### Byte memory and raw object layout accessors (main.cpp lines 178-227)

Memory is a function from byte addresses to byte values; every read takes the
stored value mod 256 so arbitrary functions denote well-formed memories. -/

def readUInt8 (mem : Nat → Nat) (a : Nat) : Nat := mem a % 256

/-- Little-endian 16-bit read, as used for UTF-16 code units. -/
def readUInt16 (mem : Nat → Nat) (a : Nat) : Nat :=
  readUInt8 mem a + 256 * readUInt8 mem (a + 1)

/-- Little-endian unsigned 32-bit read. -/
def readUInt32 (mem : Nat → Nat) (a : Nat) : Nat :=
  readUInt8 mem a + 256 * readUInt8 mem (a + 1) +
    65536 * readUInt8 mem (a + 2) + 16777216 * readUInt8 mem (a + 3)

/-- Little-endian signed (two-complement) 32-bit read, the type of the
`int32_t` length fields. -/
def readInt32 (mem : Nat → Nat) (a : Nat) : Int :=
  let u := readUInt32 mem a
  if u < 2147483648 then (u : Int) else (u : Int) - 4294967296

/-- `Array::GetArrayLength` (main.cpp line 187): the `int32_t` at
`(void**)this + 1`, i.e. at byte offset one pointer size. -/
def GetArrayLength (mem : Nat → Nat) (thisAddr ptrSize : Nat) : Int :=
  readInt32 mem (thisAddr + 1 * ptrSize)

/-- `Array::GetArrayData` (main.cpp line 190): the address `(void**)this + 2`,
i.e. byte offset two pointer sizes. -/
def GetArrayData (thisAddr ptrSize : Nat) : Nat :=
  thisAddr + 2 * ptrSize

/-! ### PrintStringObject: the string walk (main.cpp lines 211-227) -/

/-- The while loop of `PrintStringObject`: starting at `index`, while
`index < length` emit the UTF-16 unit at `dataAddr + 2*index` and advance.
`length` is the signed 32-bit string length; the `fuel` argument bounds the
recursion and is always instantiated with `length.toNat`, which is exactly
the number of iterations the loop performs. -/
def stringWalkChars (mem : Nat → Nat) (dataAddr : Nat) (length : Int) :
    Nat → Nat → List Nat
  | 0, _ => []
  | fuel + 1, index =>
    if (index : Int) < length then
      readUInt16 mem (dataAddr + 2 * index) ::
        stringWalkChars mem dataAddr length fuel (index + 1)
    else []

/-- `PrintStringObject` (main.cpp lines 211-227): reads the `int32_t` length
at byte offset `sizeof(intptr_t)`, takes the code units starting at byte
offset `sizeof(intptr_t) + sizeof(int32_t)`, and emits them one by one while
`index < length`.  The result is the list of emitted code units, in order. -/
def PrintStringObject (mem : Nat → Nat) (pStringToPrint ptrSize : Nat) : List Nat :=
  let length := readInt32 mem (pStringToPrint + ptrSize)
  let pString := pStringToPrint + ptrSize + 4
  stringWalkChars mem pString length length.toNat 0

/-! ### Diagnostic fallback stubs (main.cpp lines 295-306)

Each stub throws a `const char*` the instant it is invoked; a stub that
returned normally would produce `Except.ok`. -/

def RhGetCurrentThreadStackTrace : Except String Unit :=
  Except.error "RhGetCurrentThreadStackTrace"

def RhpUniversalTransition : Except String Unit :=
  Except.error "RhpUniversalTransition"

def RhpEtwExceptionThrown : Except String Unit :=
  Except.error "RhpEtwExceptionThrown"

/-- The diagnostic fallback stubs present on every build configuration:
stack-trace capture, universal call-transition, exception telemetry. -/
def diagnosticFallbackStubs : List (Except String Unit) :=
  [RhGetCurrentThreadStackTrace, RhpUniversalTransition, RhpEtwExceptionThrown]

/-! ### Active registration (OSX, main.cpp lines 63-68 and 348-349)

The growable list `__registeredModules` is a `NoStl::vector`; vector.h is not
among the sources here, so the vector is modelled from the spec. -/

/-- Modelled from the spec: element access of the growable registered-modules
list (`NoStl::vector`, whose source vector.h is not present).  The spec's
Active-registration strategy describes "a growable list" that units append to;
as for any such sequence, access at an index not below the size is out of
bounds, yielding no well-defined element. -/
def vectorElem? (l : List Nat) (i : Nat) : Option Nat := l.get? i

/-- The argument computation of the Apple-path `InitializeModules` call
(main.cpp line 349): takes the address of element 0 of `__registeredModules`
and its size.  When element 0 exists the runtime receives the registered
list and its length; when the list is empty the element-0 access is out of
bounds and the call has no defined meaning, modelled as `none`. -/
def appleDeliver (registeredModules : List Nat) : Option (List Nat × Nat) :=
  (vectorElem? registeredModules 0).map (fun _ => (registeredModules, registeredModules.length))

/-! ### The bootstrap sequence (main.cpp lines 150-162 and 329-368)

The external collaborators are abstracted by an environment recording the
boolean each returns and the behavior of the managed entry point; a run
produces a trace of events and the process exit code. -/

/-- Behavior of `__managed__Main`: it either returns an exit code or lets a
`const char*` internal fault (thrown by a diagnostic fallback stub) escape. -/
inductive ManagedResult where
  | ret (code : Int)
  | fault (methodName : String)

/-- The three platform shapes of main.cpp: `_WIN32` (COFF registration plus
section merge), Linux-like (section merge via linker script), `__APPLE__`
(active registration). -/
inductive Platform where
  | win32
  | linuxLike
  | apple
  deriving DecidableEq, Repr

/-- Results of the external collaborators, fixed for one process run. -/
structure Env where
  platform : Platform
  palInit : Bool
  rtuDllMain : Bool
  enableConservativeStackReporting : Bool
  registerCoffModule : Bool
  moduleData : List Nat
  registeredModules : List Nat
  managedMain : Nat → List String → ManagedResult

/-- Observable events of a bootstrap run, in program order. -/
inductive Event where
  | palInit
  | rtuDllMainAttach
  | enableConservativeStackReporting
  | registerCoffModule (table : List (Option ClasslibFn)) (count : Nat)
  | initializeModules (modules : List (Option Nat)) (count : Nat)
  | invokeManagedMain (argc : Nat) (argv : List String)
  | printNative (s : String)
  | printStringWalk (units : List Nat)
  | shutdownRuntime
  deriving DecidableEq, Repr

/-- Event kinds with payloads erased, for stating ordering properties. -/
inductive Tag where
  | palInit
  | rtuDllMainAttach
  | enableStackScan
  | registerCoff
  | initModules
  | invokeMain
  | print
  | shutdown
  deriving DecidableEq, Repr

def Event.tag : Event → Tag
  | .palInit => .palInit
  | .rtuDllMainAttach => .rtuDllMainAttach
  | .enableConservativeStackReporting => .enableStackScan
  | .registerCoffModule _ _ => .registerCoff
  | .initializeModules _ _ => .initModules
  | .invokeManagedMain _ _ => .invokeMain
  | .printNative _ => .print
  | .printStringWalk _ => .print
  | .shutdownRuntime => .shutdown

def traceTags (t : List Event) : List Tag := t.map Event.tag

/-- Whether an event is a string-walk print (a `PrintStringObject` call). -/
def Event.isStringWalk : Event → Bool
  | .printStringWalk _ => true
  | _ => false

/-- `__initialize_runtime` (main.cpp lines 150-162): call `PalInit`; if it
fails return -1; call `RtuDllMain(..., DLL_PROCESS_ATTACH, ...)`; if it fails
return -1; call `RhpEnableConservativeStackReporting`; if it fails return -1;
otherwise return 0.  Produces the trace of calls made and the return value. -/
def __initialize_runtime (env : Env) : List Event × Int :=
  if env.palInit = false then ([Event.palInit], -1)
  else if env.rtuDllMain = false then ([Event.palInit, Event.rtuDllMainAttach], -1)
  else if env.enableConservativeStackReporting = false then
    ([Event.palInit, Event.rtuDllMainAttach, Event.enableConservativeStackReporting], -1)
  else ([Event.palInit, Event.rtuDllMainAttach, Event.enableConservativeStackReporting], 0)

/-- The try/catch around `__managed__Main` plus the shutdown and return
(main.cpp lines 354-367): on normal return the managed exit code is the
process exit code; on a `const char*` fault the handler prints a fixed line
and the method name via `printf` and sets the exit code to -1; in both cases
`__shutdown_runtime` (a no-op) runs before `main` returns. -/
def managedMainWithBoundary (env : Env) (argc : Nat) (argv : List String)
    (t : List Event) : List Event × Int :=
  match env.managedMain argc argv with
  | ManagedResult.ret code =>
    (t ++ [Event.invokeManagedMain argc argv, Event.shutdownRuntime], code)
  | ManagedResult.fault methodName =>
    (t ++ [Event.invokeManagedMain argc argv,
           Event.printNative "Call to an unimplemented runtime method; execution cannot continue.\n",
           Event.printNative ("Method: " ++ methodName ++ "\n"),
           Event.shutdownRuntime], -1)

/-- The process entry point `main`/`wmain` (main.cpp lines 329-368):
runs `__initialize_runtime` and returns -1 on failure; on `_WIN32` registers
the COFF module with `c_classlibFunctions` and returns -1 on failure; calls
`InitializeModules` with the platform's module list; invokes the managed
entry point inside the fault boundary.  The Apple path with an empty
registered-modules list performs an out-of-bounds element-0 access and has no
defined result, modelled as `none`. -/
def mainRun (env : Env) (argc : Nat) (argv : List String) : Option (List Event × Int) :=
  let ir := __initialize_runtime env
  if ir.2 ≠ 0 then some (ir.1, -1)
  else
    match env.platform with
    | Platform.win32 =>
      let t := ir.1 ++ [Event.registerCoffModule c_classlibFunctions registeredClasslibFunctionCount]
      if env.registerCoffModule = false then some (t, -1)
      else some (managedMainWithBoundary env argc argv
        (t ++ [Event.initializeModules (initializeModulesList env.moduleData)
                 (initializeModulesCount env.moduleData)]))
    | Platform.linuxLike =>
      some (managedMainWithBoundary env argc argv
        (ir.1 ++ [Event.initializeModules (initializeModulesList env.moduleData)
                    (initializeModulesCount env.moduleData)]))
    | Platform.apple =>
      match appleDeliver env.registeredModules with
      | none => none
      | some (mods, count) =>
        some (managedMainWithBoundary env argc argv
          (ir.1 ++ [Event.initializeModules (mods.map some) count]))

/-- Bootstrap steps 1-4 all succeed (on the Apple platform this also demands
a nonempty registered-module list, without which step 5 is undefined). -/
def initOK (env : Env) : Prop :=
  env.palInit = true ∧ env.rtuDllMain = true ∧
  env.enableConservativeStackReporting = true ∧
  (env.platform = Platform.win32 → env.registerCoffModule = true) ∧
  (env.platform = Platform.apple → env.registeredModules ≠ [])

/-- `__not_yet_implemented` (main.cpp lines 228-240): prints two fixed
diagnostic lines, the method name and the reason message via the
`PrintStringObject` string walk, and exits the process with -1. -/
def __not_yet_implemented (mem : Nat → Nat) (pMethodName pMessage ptrSize : Nat) :
    List Event × Int :=
  ([Event.printNative "ILCompiler failed generating code for this method; execution cannot continue.\n",
    Event.printNative "This is likely because of a feature that is not yet implemented in the compiler.\n",
    Event.printNative "Method: ",
    Event.printStringWalk (PrintStringObject mem pMethodName ptrSize),
    Event.printNative "\n\n",
    Event.printNative "Reason: ",
    Event.printStringWalk (PrintStringObject mem pMessage ptrSize),
    Event.printNative "\n"], -1)

/-! ### Concrete environments and memories used to instantiate the theorems -/

/-- A Windows-class run in which every bootstrap step succeeds, two units
contributed descriptors 10 and 20, and the managed entry point returns 0. -/
def envAllOk : Env :=
  { platform := Platform.win32
    palInit := true
    rtuDllMain := true
    enableConservativeStackReporting := true
    registerCoffModule := true
    moduleData := [10, 20]
    registeredModules := [10]
    managedMain := fun _ _ => ManagedResult.ret 0 }

/-- Like `envAllOk`, but the managed entry point hits a diagnostic fallback
stub, so the internal fault `"RhpUniversalTransition"` escapes to `main`. -/
def envFault : Env :=
  { platform := Platform.win32
    palInit := true
    rtuDllMain := true
    enableConservativeStackReporting := true
    registerCoffModule := true
    moduleData := [10, 20]
    registeredModules := [10]
    managedMain := fun _ _ => ManagedResult.fault "RhpUniversalTransition" }

/-- A run in which platform-abstraction init fails. -/
def envPalFail : Env :=
  { platform := Platform.linuxLike
    palInit := false
    rtuDllMain := true
    enableConservativeStackReporting := true
    registerCoffModule := true
    moduleData := [10, 20]
    registeredModules := [10]
    managedMain := fun _ _ => ManagedResult.ret 0 }

/-- An Apple (active-registration) run with two registered modules. -/
def envApple : Env :=
  { platform := Platform.apple
    palInit := true
    rtuDllMain := true
    enableConservativeStackReporting := true
    registerCoffModule := true
    moduleData := []
    registeredModules := [10, 20]
    managedMain := fun _ _ => ManagedResult.ret 0 }

/-- The full trace of the run `mainRun envFault 0 []`. -/
def faultTrace : List Event :=
  [Event.palInit, Event.rtuDllMainAttach, Event.enableConservativeStackReporting,
   Event.registerCoffModule c_classlibFunctions 4,
   Event.initializeModules [none, some 10, some 20] 3,
   Event.invokeManagedMain 0 [],
   Event.printNative "Call to an unimplemented runtime method; execution cannot continue.\n",
   Event.printNative "Method: RhpUniversalTransition\n",
   Event.shutdownRuntime]

/-- The full trace of the run `mainRun envAllOk 0 []`. -/
def okTrace : List Event :=
  [Event.palInit, Event.rtuDllMainAttach, Event.enableConservativeStackReporting,
   Event.registerCoffModule c_classlibFunctions 4,
   Event.initializeModules [none, some 10, some 20] 3,
   Event.invokeManagedMain 0 [],
   Event.shutdownRuntime]

/-- A memory holding an array object at address 0 with 4-byte pointers:
the length field 5 sits at byte offset 4. -/
def memLen5 : Nat → Nat := fun a => if a = 4 then 5 else 0

/-- A memory holding a string object at address 0 with 8-byte pointers:
length field 3 at byte offset 8, UTF-16 units of "abc" from byte offset 12. -/
def memABC : Nat → Nat := fun a =>
  if a = 8 then 3
  else if a = 12 then 97
  else if a = 14 then 98
  else if a = 16 then 99
  else 0

/-! ### The claims -/

/-- C1 (amended): the module list delivered to `InitializeModules` under the
section-merge strategy is the leading one-null placeholder followed by the N
contributed descriptors in order — N+1 entries, the leading bookend included,
the trailing bookend excluded; the entries after the placeholder are exactly
the contents strictly between the bookends, with no duplicates and no drops. -/
theorem initializeModulesList_sentinel_included (data : List Nat) :
    initializeModulesList data = none :: data.map some ∧
    (initializeModulesList data).length = data.length + 1 ∧
    (initializeModulesList data).drop 1 = spec_strictlyBetweenList data := by
  have h : initializeModulesList data = none :: data.map some := by
    simp only [initializeModulesList, mergedModulesSection, initializeModulesCount,
      modulesZIndex, modulesAIndex, List.drop_zero, Nat.sub_zero]
    rw [Nat.add_comm 1 data.length]
    simp only [List.cons_append, List.nil_append, List.take_succ_cons]
    rw [List.take_left' (by simp)]
  refine ⟨h, ?_, ?_⟩ <;> simp [h, spec_strictlyBetweenList]

/-- C1 counterexample: with two contributing units (descriptors 1 and 2) the
list passed to `InitializeModules` is not the contents strictly between the
bookends: it has 3 entries, not 2, and entry 0 is the null placeholder. -/
theorem initializeModulesList_counterexample :
    initializeModulesList [1, 2] ≠ spec_strictlyBetweenList [1, 2] ∧
    (initializeModulesList [1, 2]).length = 3 ∧
    (spec_strictlyBetweenList [1, 2]).length = 2 := by decide

/-- C2 (amended): on Windows-class platforms the callback table registered
alongside the managed code range is, in ABI order, get-runtime-exception,
fail-fast, unhandled-handler (unset), append-stack-frame (unset) — four
entries — and the registered callback count equals the length of that table,
namely 4; whenever bootstrap reaches the registration step the event carries
exactly this table and count. -/
theorem classlibTable_registration (env : Env) (argc : Nat) (argv : List String)
    (hplat : env.platform = Platform.win32) (hok : initOK env) :
    c_classlibFunctions =
      [some ClasslibFn.getRuntimeException, some ClasslibFn.failFast, none, none] ∧
    registeredClasslibFunctionCount = c_classlibFunctions.length ∧
    registeredClasslibFunctionCount = 4 ∧
    ∃ t r, mainRun env argc argv = some (t, r) ∧
      Event.registerCoffModule c_classlibFunctions registeredClasslibFunctionCount ∈ t := by
  obtain ⟨h1, h2, h3, h4, -⟩ := hok
  refine ⟨rfl, rfl, rfl, ?_⟩
  cases hm : env.managedMain argc argv with
  | ret code =>
    refine ⟨[Event.palInit, Event.rtuDllMainAttach, Event.enableConservativeStackReporting,
      Event.registerCoffModule c_classlibFunctions registeredClasslibFunctionCount,
      Event.initializeModules (initializeModulesList env.moduleData)
        (initializeModulesCount env.moduleData),
      Event.invokeManagedMain argc argv, Event.shutdownRuntime], code, ?_, ?_⟩
    · simp [mainRun, __initialize_runtime, h1, h2, h3, hplat, h4 hplat,
        managedMainWithBoundary, hm]
    · simp
  | fault m =>
    refine ⟨[Event.palInit, Event.rtuDllMainAttach, Event.enableConservativeStackReporting,
      Event.registerCoffModule c_classlibFunctions registeredClasslibFunctionCount,
      Event.initializeModules (initializeModulesList env.moduleData)
        (initializeModulesCount env.moduleData),
      Event.invokeManagedMain argc argv,
      Event.printNative "Call to an unimplemented runtime method; execution cannot continue.\n",
      Event.printNative ("Method: " ++ m ++ "\n"),
      Event.shutdownRuntime], -1, ?_, ?_⟩
    · simp [mainRun, __initialize_runtime, h1, h2, h3, hplat, h4 hplat,
        managedMainWithBoundary, hm]
    · simp

/-- C2 witness: the amended statement instantiated on the all-succeeding
Windows-class run. -/
theorem classlibTable_registration_witness :
    c_classlibFunctions =
      [some ClasslibFn.getRuntimeException, some ClasslibFn.failFast, none, none] ∧
    registeredClasslibFunctionCount = c_classlibFunctions.length ∧
    registeredClasslibFunctionCount = 4 ∧
    ∃ t r, mainRun envAllOk 0 [] = some (t, r) ∧
      Event.registerCoffModule c_classlibFunctions registeredClasslibFunctionCount ∈ t :=
  classlibTable_registration envAllOk 0 [] rfl
    ⟨rfl, rfl, rfl, fun _ => rfl, fun h => by cases h⟩

/-- C2 counterexample: the table actually registered differs from the
eight-entry object-alloc/array-alloc/type-check/store/load/raise table the
claim states — it has 4 entries, not 8. -/
theorem classlibTable_counterexample :
    c_classlibFunctions ≠ spec_claimedCallbackTable ∧
    c_classlibFunctions.length = 4 ∧
    spec_claimedCallbackTable.length = 8 := by decide

/-- C3 (amended): `GetArrayLength` returns the 32-bit field immediately after
the type descriptor (5 for a length-5 array), while `GetArrayData` returns the
address at byte offset 2 × pointer-size — which is the address immediately
following the length field exactly when the pointer size is 4 bytes. -/
theorem arrayAccessors (mem : Nat → Nat) (addr ptrSize : Nat)
    (h : readUInt32 mem (addr + ptrSize) = 5) :
    GetArrayLength mem addr ptrSize = 5 ∧
    GetArrayData addr ptrSize = addr + 2 * ptrSize ∧
    (GetArrayData addr ptrSize = addr + (ptrSize + 4) ↔ ptrSize = 4) := by
  refine ⟨?_, rfl, ?_⟩
  · simp [GetArrayLength, readInt32, h]
  · unfold GetArrayData
    omega

/-- C3 witness: a length-5 array at address 0 with 4-byte pointers. -/
theorem arrayAccessors_witness :
    GetArrayLength memLen5 0 4 = 5 ∧
    GetArrayData 0 4 = 0 + 2 * 4 ∧
    (GetArrayData 0 4 = 0 + (4 + 4) ↔ (4 : Nat) = 4) :=
  arrayAccessors memLen5 0 4 (by decide)

/-- C3 counterexample: with 8-byte pointers, `GetArrayData` on an object at
address 0 yields 16, not the offset pointer-size + 4 = 12 the claim states. -/
theorem arrayData_counterexample :
    GetArrayData 0 8 = 16 ∧ GetArrayData 0 8 ≠ 0 + (8 + 4) := by decide

/-- C8: every diagnostic fallback stub (stack-trace capture, universal
call-transition, exception telemetry) raises the internal-fault signal upon
invocation and never returns a value to its caller. -/
theorem diagnosticStubsAlwaysFault (s : Except String Unit)
    (h : s ∈ diagnosticFallbackStubs) :
    (∃ msg, s = Except.error msg) ∧ ∀ u, s ≠ Except.ok u := by
  simp only [diagnosticFallbackStubs, List.mem_cons, List.not_mem_nil, or_false] at h
  rcases h with h | h | h <;> subst h <;>
    exact ⟨⟨_, rfl⟩, fun u hu => Except.noConfusion hu⟩

/-- C8 witness: the universal call-transition stub faults and never returns. -/
theorem diagnosticStubsAlwaysFault_witness :
    (∃ msg, RhpUniversalTransition = Except.error msg) ∧
    ∀ u, RhpUniversalTransition ≠ Except.ok u :=
  diagnosticStubsAlwaysFault RhpUniversalTransition (by simp [diagnosticFallbackStubs])

/-- Helper: the string-walk loop starting at `index` with exactly enough fuel
to reach `L` emits the code units at indices `index, index+1, ...` in order. -/
theorem stringWalkChars_range (mem : Nat → Nat) (d L : Nat) :
    ∀ fuel index, index + fuel = L →
      stringWalkChars mem d (L : Int) fuel index =
        (List.range fuel).map (fun i => readUInt16 mem (d + 2 * (index + i))) := by
  intro fuel
  induction fuel with
  | zero => intro index h; simp [stringWalkChars]
  | succ n ih =>
    intro index h
    have hlt : (index : Int) < (L : Int) := by exact_mod_cast (by omega : index < L)
    rw [stringWalkChars, if_pos hlt, ih (index + 1) (by omega), List.range_succ_eq_map]
    simp only [List.map_cons, List.map_map, Nat.add_zero, Function.comp]
    congr 1
    apply List.map_congr_left
    intro i _
    congr 1
    omega

/-- C7: for every string object laid out as a 32-bit length L followed by L
UTF-16 code units, `PrintStringObject` emits exactly the L units in order. -/
theorem stringWalkSpec (mem : Nat → Nat) (addr ptrSize L : Nat)
    (hL : readUInt32 mem (addr + ptrSize) = L) (hsmall : L < 2147483648) :
    PrintStringObject mem addr ptrSize =
      (List.range L).map (fun i => readUInt16 mem (addr + ptrSize + 4 + 2 * i)) ∧
    (PrintStringObject mem addr ptrSize).length = L := by
  have hlen : readInt32 mem (addr + ptrSize) = (L : Int) := by
    simp [readInt32, hL, hsmall]
  have h0 : PrintStringObject mem addr ptrSize =
      stringWalkChars mem (addr + ptrSize + 4) (L : Int) L 0 := by
    simp only [PrintStringObject, hlen, Int.toNat_natCast]
  rw [h0, stringWalkChars_range mem (addr + ptrSize + 4) L L 0 (by omega)]
  constructor
  · apply List.map_congr_left
    intro i _
    congr 1
    omega
  · simp

/-- C7 witness: the string object "abc" (L = 3, units 97, 98, 99) at address
0 with 8-byte pointers: the walk emits exactly those three units in order. -/
theorem stringWalkSpec_witness :
    PrintStringObject memABC 0 8 = [97, 98, 99] ∧
    (PrintStringObject memABC 0 8).length = 3 := by
  have h := stringWalkSpec memABC 0 8 3 (by decide) (by decide)
  exact ⟨h.1.trans (by decide), h.2⟩

/-- C4 (amended): the fault boundary around the managed entry invocation
catches the single internal-fault signal type, which carries one native
method-name string; on catching it the handler prints a fixed diagnostic line
and the method name via native printf (not the managed string-walk, and with
no separate reason string), and after the no-op shutdown the process exits
with the fixed negative code -1, so managed execution never continues past
the fault.  (Printing a method-name/reason pair of managed strings via the
string walk and exiting -1 is the behavior of the separate
`__not_yet_implemented` entry point, not of this catch boundary.) -/
theorem faultBoundary (env : Env) (argc : Nat) (argv : List String) (m : String)
    (hok : initOK env) (hm : env.managedMain argc argv = ManagedResult.fault m) :
    ∃ pre, mainRun env argc argv = some (pre ++
      [Event.invokeManagedMain argc argv,
       Event.printNative "Call to an unimplemented runtime method; execution cannot continue.\n",
       Event.printNative ("Method: " ++ m ++ "\n"),
       Event.shutdownRuntime], -1) := by
  obtain ⟨h1, h2, h3, h4, h5⟩ := hok
  cases hplat : env.platform with
  | win32 =>
    refine ⟨[Event.palInit, Event.rtuDllMainAttach, Event.enableConservativeStackReporting,
      Event.registerCoffModule c_classlibFunctions registeredClasslibFunctionCount,
      Event.initializeModules (initializeModulesList env.moduleData)
        (initializeModulesCount env.moduleData)], ?_⟩
    simp [mainRun, __initialize_runtime, h1, h2, h3, hplat, h4 hplat,
      managedMainWithBoundary, hm]
  | linuxLike =>
    refine ⟨[Event.palInit, Event.rtuDllMainAttach, Event.enableConservativeStackReporting,
      Event.initializeModules (initializeModulesList env.moduleData)
        (initializeModulesCount env.moduleData)], ?_⟩
    simp [mainRun, __initialize_runtime, h1, h2, h3, hplat, managedMainWithBoundary, hm]
  | apple =>
    refine ⟨[Event.palInit, Event.rtuDllMainAttach, Event.enableConservativeStackReporting,
      Event.initializeModules (env.registeredModules.map some)
        env.registeredModules.length], ?_⟩
    cases hreg : env.registeredModules with
    | nil => exact absurd hreg (h5 hplat)
    | cons a l =>
      simp [mainRun, __initialize_runtime, h1, h2, h3, hplat, managedMainWithBoundary,
        hm, appleDeliver, vectorElem?, hreg]

/-- C4 witness: the amended statement instantiated on the concrete faulting
run `envFault`, whose fault carries the method name "RhpUniversalTransition". -/
theorem faultBoundary_witness :
    ∃ pre, mainRun envFault 0 [] = some (pre ++
      [Event.invokeManagedMain 0 [],
       Event.printNative "Call to an unimplemented runtime method; execution cannot continue.\n",
       Event.printNative ("Method: " ++ "RhpUniversalTransition" ++ "\n"),
       Event.shutdownRuntime], -1) :=
  faultBoundary envFault 0 [] "RhpUniversalTransition"
    ⟨rfl, rfl, rfl, fun _ => rfl, fun h => Platform.noConfusion h⟩ rfl

/-- C4 counterexample: in the concrete faulting run the entire trace contains
no string-walk print at all — the handler prints the single native method
name via printf and there is no reason string — contradicting the claim that
the boundary prints a method name and a reason, each a managed string, via
the Layout Accessors' string walk. -/
theorem faultBoundary_counterexample :
    mainRun envFault 0 [] = some (faultTrace, -1) ∧
    faultTrace.filter Event.isStringWalk = [] := by
  exact ⟨rfl, rfl⟩

/-- C5: if platform-abstraction init, the attach notification, stack-scan
enablement, or (on Windows-class platforms) COFF module registration fails,
then the managed entry point is never invoked, module initialization — and
with it every later bootstrap step — never runs, and the process exit code is
the negative value -1. -/
theorem bootstrapFailureAborts (env : Env) (argc : Nat) (argv : List String)
    (h : env.palInit = false ∨ env.rtuDllMain = false ∨
         env.enableConservativeStackReporting = false ∨
         (env.platform = Platform.win32 ∧ env.registerCoffModule = false)) :
    ∃ t, mainRun env argc argv = some (t, -1) ∧
      (∀ a v, Event.invokeManagedMain a v ∉ t) ∧
      (∀ mods c, Event.initializeModules mods c ∉ t) ∧
      (-1 : Int) < 0 := by
  cases h1 : env.palInit with
  | false =>
    exact ⟨[Event.palInit], by simp [mainRun, __initialize_runtime, h1],
      by simp, by simp, by norm_num⟩
  | true =>
    cases h2 : env.rtuDllMain with
    | false =>
      exact ⟨[Event.palInit, Event.rtuDllMainAttach],
        by simp [mainRun, __initialize_runtime, h1, h2], by simp, by simp, by norm_num⟩
    | true =>
      cases h3 : env.enableConservativeStackReporting with
      | false =>
        exact ⟨[Event.palInit, Event.rtuDllMainAttach,
          Event.enableConservativeStackReporting],
          by simp [mainRun, __initialize_runtime, h1, h2, h3], by simp, by simp, by norm_num⟩
      | true =>
        simp only [h1, h2, h3, Bool.true_eq_false, false_or, false_and, or_false] at h
        obtain ⟨hplat, hcoff⟩ := h
        exact ⟨[Event.palInit, Event.rtuDllMainAttach,
          Event.enableConservativeStackReporting,
          Event.registerCoffModule c_classlibFunctions registeredClasslibFunctionCount],
          by simp [mainRun, __initialize_runtime, h1, h2, h3, hplat, hcoff],
          by simp, by simp, by norm_num⟩

/-- C5 witness: the run in which platform-abstraction init fails. -/
theorem bootstrapFailureAborts_witness :
    ∃ t, mainRun envPalFail 0 [] = some (t, -1) ∧
      (∀ a v, Event.invokeManagedMain a v ∉ t) ∧
      (∀ mods c, Event.initializeModules mods c ∉ t) ∧
      (-1 : Int) < 0 :=
  bootstrapFailureAborts envPalFail 0 [] (Or.inl rfl)

/-- C6: on every run that reaches the managed entry point, platform
abstraction init precedes conservative stack-scan enablement, which precedes
module initialization, which precedes the managed entry point invocation. -/
theorem bootstrapOrdering (env : Env) (argc : Nat) (argv : List String)
    (t : List Event) (r : Int)
    (hrun : mainRun env argc argv = some (t, r))
    (hinv : Tag.invokeMain ∈ traceTags t) :
    (traceTags t).indexOf Tag.palInit < (traceTags t).indexOf Tag.enableStackScan ∧
    (traceTags t).indexOf Tag.enableStackScan < (traceTags t).indexOf Tag.initModules ∧
    (traceTags t).indexOf Tag.initModules < (traceTags t).indexOf Tag.invokeMain ∧
    Tag.palInit ∈ traceTags t ∧ Tag.enableStackScan ∈ traceTags t ∧
    Tag.initModules ∈ traceTags t := by
  cases h1 : env.palInit with
  | false =>
    simp [mainRun, __initialize_runtime, h1] at hrun
    obtain ⟨ht, -⟩ := hrun
    subst ht
    simp [traceTags, Event.tag] at hinv
  | true =>
  cases h2 : env.rtuDllMain with
  | false =>
    simp [mainRun, __initialize_runtime, h1, h2] at hrun
    obtain ⟨ht, -⟩ := hrun
    subst ht
    simp [traceTags, Event.tag] at hinv
  | true =>
  cases h3 : env.enableConservativeStackReporting with
  | false =>
    simp [mainRun, __initialize_runtime, h1, h2, h3] at hrun
    obtain ⟨ht, -⟩ := hrun
    subst ht
    simp [traceTags, Event.tag] at hinv
  | true =>
  cases hplat : env.platform with
  | win32 =>
    cases h4 : env.registerCoffModule with
    | false =>
      simp [mainRun, __initialize_runtime, h1, h2, h3, hplat, h4] at hrun
      obtain ⟨ht, -⟩ := hrun
      subst ht
      simp [traceTags, Event.tag] at hinv
    | true =>
      cases hm : env.managedMain argc argv with
      | ret code =>
        simp [mainRun, __initialize_runtime, h1, h2, h3, hplat, h4,
          managedMainWithBoundary, hm] at hrun
        obtain ⟨ht, -⟩ := hrun
        subst ht
        simp [traceTags, Event.tag]
      | fault m =>
        simp [mainRun, __initialize_runtime, h1, h2, h3, hplat, h4,
          managedMainWithBoundary, hm] at hrun
        obtain ⟨ht, -⟩ := hrun
        subst ht
        simp [traceTags, Event.tag]
  | linuxLike =>
    cases hm : env.managedMain argc argv with
    | ret code =>
      simp [mainRun, __initialize_runtime, h1, h2, h3, hplat,
        managedMainWithBoundary, hm] at hrun
      obtain ⟨ht, -⟩ := hrun
      subst ht
      simp [traceTags, Event.tag]
    | fault m =>
      simp [mainRun, __initialize_runtime, h1, h2, h3, hplat,
        managedMainWithBoundary, hm] at hrun
      obtain ⟨ht, -⟩ := hrun
      subst ht
      simp [traceTags, Event.tag]
  | apple =>
    cases hreg : env.registeredModules with
    | nil =>
      simp [mainRun, __initialize_runtime, h1, h2, h3, hplat,
        appleDeliver, vectorElem?, hreg] at hrun
    | cons a l =>
      cases hm : env.managedMain argc argv with
      | ret code =>
        simp [mainRun, __initialize_runtime, h1, h2, h3, hplat,
          appleDeliver, vectorElem?, hreg, managedMainWithBoundary, hm] at hrun
        obtain ⟨ht, -⟩ := hrun
        subst ht
        simp [traceTags, Event.tag]
      | fault m =>
        simp [mainRun, __initialize_runtime, h1, h2, h3, hplat,
          appleDeliver, vectorElem?, hreg, managedMainWithBoundary, hm] at hrun
        obtain ⟨ht, -⟩ := hrun
        subst ht
        simp [traceTags, Event.tag]

/-- C6 witness: the ordering on the all-succeeding Windows-class run. -/
theorem bootstrapOrdering_witness :
    (traceTags okTrace).indexOf Tag.palInit < (traceTags okTrace).indexOf Tag.enableStackScan ∧
    (traceTags okTrace).indexOf Tag.enableStackScan < (traceTags okTrace).indexOf Tag.initModules ∧
    (traceTags okTrace).indexOf Tag.initModules < (traceTags okTrace).indexOf Tag.invokeMain ∧
    Tag.palInit ∈ traceTags okTrace ∧ Tag.enableStackScan ∈ traceTags okTrace ∧
    Tag.initModules ∈ traceTags okTrace :=
  bootstrapOrdering envAllOk 0 [] okTrace 0 rfl (by decide)

/-- C9: when every bootstrap step succeeds and the managed entry point
returns normally, the process entry forwards its argument count and argument
vector unchanged to the managed entry point, and the managed entry point's
return value becomes the process exit code. -/
theorem managedMainPassthrough (env : Env) (argc : Nat) (argv : List String) (code : Int)
    (hok : initOK env) (hret : env.managedMain argc argv = ManagedResult.ret code) :
    ∃ pre, mainRun env argc argv = some (pre ++
      [Event.invokeManagedMain argc argv, Event.shutdownRuntime], code) := by
  obtain ⟨h1, h2, h3, h4, h5⟩ := hok
  cases hplat : env.platform with
  | win32 =>
    refine ⟨[Event.palInit, Event.rtuDllMainAttach, Event.enableConservativeStackReporting,
      Event.registerCoffModule c_classlibFunctions registeredClasslibFunctionCount,
      Event.initializeModules (initializeModulesList env.moduleData)
        (initializeModulesCount env.moduleData)], ?_⟩
    simp [mainRun, __initialize_runtime, h1, h2, h3, hplat, h4 hplat,
      managedMainWithBoundary, hret]
  | linuxLike =>
    refine ⟨[Event.palInit, Event.rtuDllMainAttach, Event.enableConservativeStackReporting,
      Event.initializeModules (initializeModulesList env.moduleData)
        (initializeModulesCount env.moduleData)], ?_⟩
    simp [mainRun, __initialize_runtime, h1, h2, h3, hplat, managedMainWithBoundary, hret]
  | apple =>
    refine ⟨[Event.palInit, Event.rtuDllMainAttach, Event.enableConservativeStackReporting,
      Event.initializeModules (env.registeredModules.map some)
        env.registeredModules.length], ?_⟩
    cases hreg : env.registeredModules with
    | nil => exact absurd hreg (h5 hplat)
    | cons a l =>
      simp [mainRun, __initialize_runtime, h1, h2, h3, hplat, managedMainWithBoundary,
        hret, appleDeliver, vectorElem?, hreg]

/-- C9 witness: the all-succeeding Windows-class run with exit code 0. -/
theorem managedMainPassthrough_witness :
    ∃ pre, mainRun envAllOk 0 [] = some (pre ++
      [Event.invokeManagedMain 0 [], Event.shutdownRuntime], 0) :=
  managedMainPassthrough envAllOk 0 [] 0
    ⟨rfl, rfl, rfl, fun _ => rfl, fun h => Platform.noConfusion h⟩ rfl

/-- C10: on the active-registration (Apple) platform, delivering the module
list reads element 0 of the growable registered-modules list unconditionally:
element 0 is absent exactly when no unit registered, in which case the access
is out of bounds and the run has no defined result; with at least one
registered module the delivery is well-defined and hands the runtime the
whole registered list with its length. -/
theorem appleRegistryElementZero (env : Env) (argc : Nat) (argv : List String)
    (hplat : env.platform = Platform.apple) (h1 : env.palInit = true)
    (h2 : env.rtuDllMain = true) (h3 : env.enableConservativeStackReporting = true) :
    (vectorElem? env.registeredModules 0 = none ↔ env.registeredModules = []) ∧
    (env.registeredModules = [] →
      appleDeliver env.registeredModules = none ∧ mainRun env argc argv = none) ∧
    (env.registeredModules ≠ [] →
      ∃ t r, mainRun env argc argv = some (t, r) ∧
        Event.initializeModules (env.registeredModules.map some)
          env.registeredModules.length ∈ t) := by
  refine ⟨?_, ?_, ?_⟩
  · cases env.registeredModules <;> simp [vectorElem?]
  · intro hnil
    refine ⟨by simp [appleDeliver, vectorElem?, hnil], ?_⟩
    simp [mainRun, __initialize_runtime, h1, h2, h3, hplat, appleDeliver,
      vectorElem?, hnil]
  · intro hne
    cases hreg : env.registeredModules with
    | nil => exact absurd hreg hne
    | cons a l =>
      cases hm : env.managedMain argc argv with
      | ret code =>
        refine ⟨[Event.palInit, Event.rtuDllMainAttach,
          Event.enableConservativeStackReporting,
          Event.initializeModules ((a :: l).map some) (a :: l).length,
          Event.invokeManagedMain argc argv, Event.shutdownRuntime], code, ?_, ?_⟩
        · simp [mainRun, __initialize_runtime, h1, h2, h3, hplat, appleDeliver,
            vectorElem?, hreg, managedMainWithBoundary, hm]
        · simp
      | fault m =>
        refine ⟨[Event.palInit, Event.rtuDllMainAttach,
          Event.enableConservativeStackReporting,
          Event.initializeModules ((a :: l).map some) (a :: l).length,
          Event.invokeManagedMain argc argv,
          Event.printNative "Call to an unimplemented runtime method; execution cannot continue.\n",
          Event.printNative ("Method: " ++ m ++ "\n"),
          Event.shutdownRuntime], -1, ?_, ?_⟩
        · simp [mainRun, __initialize_runtime, h1, h2, h3, hplat, appleDeliver,
            vectorElem?, hreg, managedMainWithBoundary, hm]
        · simp

/-- C10 witness: the Apple run with two registered modules. -/
theorem appleRegistryElementZero_witness :
    (vectorElem? envApple.registeredModules 0 = none ↔ envApple.registeredModules = []) ∧
    (envApple.registeredModules = [] →
      appleDeliver envApple.registeredModules = none ∧ mainRun envApple 0 [] = none) ∧
    (envApple.registeredModules ≠ [] →
      ∃ t r, mainRun envApple 0 [] = some (t, r) ∧
        Event.initializeModules (envApple.registeredModules.map some)
          envApple.registeredModules.length ∈ t) :=
  appleRegistryElementZero envApple 0 [] rfl rfl rfl rfl

end CoreRTBootstrap
